import Mathlib

/-!
Shallow embedding of the translation orchestration core of the repository:
the Ollama inference client (`OllamaServiceImpl` in the source), the
translation settings repository (`TranslationSettingsRepositoryImpl`) and the
translation orchestrator (`TranslationServiceImpl`).

The backend (the `ollama` npm client) and the persistence store are opaque
external collaborators; they are modelled as oracle fields of an environment
record (`OllamaEnv`, `TranslateEnv`).  Service methods become pure functions
of that environment; an explicit event trace records the collaborator calls a
run performs, and the orchestrator's in-memory busy flag / abort-controller
slot is an explicit `ServiceState`.
-/

deriving instance DecidableEq for Except

/-- The closed set of supported language codes (`SupportedLanguage` in
`src/shared/domain/translation.ts`). -/
inductive SupportedLanguage
  | ja
  | en
deriving DecidableEq

/-- Display names used by `createTranslationPrompt` (the `languageNames`
record in `translation-service.ts`). -/
def languageName : SupportedLanguage → String
  | .ja => "Japanese"
  | .en => "English"

/-- `TranslationRequest` from `src/shared/domain/translation.ts`:
`sourceLanguage`, `targetLanguage` and `modelName` are optional fields. -/
structure TranslationRequest where
  text : String
  sourceLanguage : Option SupportedLanguage
  targetLanguage : Option SupportedLanguage
  modelName : Option String
deriving DecidableEq

/-- `TranslationResponse` from `src/shared/domain/translation.ts`, with the
fields `translate` actually constructs. -/
structure TranslationResponse where
  translatedText : String
  sourceLanguage : SupportedLanguage
  targetLanguage : SupportedLanguage
  modelUsed : String
  timestamp : String
deriving DecidableEq

/-- Error codes of the shared `TranslationError` domain object. -/
inductive ErrorCode
  | OLLAMA_NOT_RUNNING
  | MODEL_NOT_FOUND
  | NETWORK_ERROR
  | LANGUAGE_DETECTION_FAILED
  | TRANSLATION_FAILED
deriving DecidableEq

/-- `TranslationError` from `src/shared/domain/translation.ts`. -/
structure TranslationError where
  code : ErrorCode
  message : String
  details : Option String
deriving DecidableEq

/-- A failure surfaced by the orchestrator: either a plain JS `Error`
(identified by its message, as thrown by `translate` / `getModelToUse`) or a
classified `TranslationError` object thrown by the Ollama service. -/
inductive TransError
  | jsError (msg : String)
  | classified (e : TranslationError)
deriving DecidableEq

/-- A model descriptor returned by the backend (`OllamaModel` in
`src/shared/domain/ollama.ts`; only `name` is consulted by the core). -/
structure OllamaModel where
  name : String
  modified_at : String := ""
  size : Nat := 0
  digest : String := ""
deriving DecidableEq

/-- One chat message (`OllamaChatMessage`). -/
structure OllamaChatMessage where
  role : String
  content : String
deriving DecidableEq

/-- The request object `TranslationServiceImpl.performTranslation` passes to
`OllamaService.chat`.  The `signal` field models the abort signal the
orchestrator attaches: `some b` means a signal is attached whose abort event
fires during the round trip iff `b`.  `OllamaServiceImpl.chat` never reads
this field (see `chat` below), mirroring the source. -/
structure OllamaChatRequest where
  model : String
  messages : List OllamaChatMessage
  stream : Bool
  temperature : Option ℚ
  signal : Option Bool
deriving DecidableEq

/-- Oracle for the opaque `ollama` npm client: the outcome of
`this.ollama.list()` (either the model list or a transport error message) and
of `this.ollama.chat(...)` (either the reply's `message.content` or a
transport error message).  One environment describes one run, during which
the backend answers consistently. -/
structure OllamaEnv where
  listResult : Except String (List OllamaModel)
  chatContent : Except String String
deriving DecidableEq

/-- Whether the character list `cs` begins with `pat`. -/
def charsStartWith : List Char → List Char → Bool
  | _, [] => true
  | [], _ :: _ => false
  | c :: cs, p :: ps => c == p && charsStartWith cs ps

/-- Whether `pat` occurs somewhere in the character list. -/
def charsContain (pat : List Char) : List Char → Bool
  | [] => pat.isEmpty
  | c :: cs => charsStartWith (c :: cs) pat || charsContain pat cs

/-- JS `string.includes(pat)`. -/
def strIncludes (s pat : String) : Bool :=
  charsContain pat.data s.data

/-- Remove the first occurrence of `pat` from the character list (JS
`string.replace(pat, "")` with a string pattern replaces only the first
occurrence). -/
def removeFirstOccur (pat : List Char) : List Char → List Char
  | [] => []
  | c :: cs =>
    if charsStartWith (c :: cs) pat then (c :: cs).drop pat.length
    else c :: removeFirstOccur pat cs

/-- `modelName.replace(":latest", "")` from `OllamaServiceImpl.modelExists`:
removes the FIRST occurrence of `":latest"`, wherever it is. -/
def replaceLatest (modelName : String) : String :=
  ⟨removeFirstOccur (":latest").data modelName.data⟩

/-- `OllamaServiceImpl.handleError`: classifies a transport/runtime failure
message into a `TranslationError`. -/
def handleError (errorMessage : String) (context : String) : TranslationError :=
  if strIncludes errorMessage "ECONNREFUSED" || strIncludes errorMessage "connect" then
    { code := .OLLAMA_NOT_RUNNING
      message := "Ollama server is not running"
      details := some (context ++ ": " ++ errorMessage) }
  else if strIncludes errorMessage "not found" || strIncludes errorMessage "model" then
    { code := .MODEL_NOT_FOUND
      message := "Model not found"
      details := some (context ++ ": " ++ errorMessage) }
  else if strIncludes errorMessage "network" || strIncludes errorMessage "timeout" then
    { code := .NETWORK_ERROR
      message := "Network connection error"
      details := some (context ++ ": " ++ errorMessage) }
  else
    { code := .TRANSLATION_FAILED
      message := "Translation failed"
      details := some (context ++ ": " ++ errorMessage) }

/-- `OllamaServiceImpl.listModels`: surfaces the backend list, or throws the
classified error (context `"Failed to list models"`). -/
def listModels (env : OllamaEnv) : Except TranslationError (List OllamaModel) :=
  match env.listResult with
  | .ok response => .ok response
  | .error e => .error (handleError e "Failed to list models")

/-- `OllamaServiceImpl.modelExists`: exact-name match first, then a match of
the name with its first `":latest"` occurrence removed, either bare or with
`":latest"` re-appended.  The surrounding `try/catch` turns any listing
failure into `false`, so the function never throws. -/
def modelExists (env : OllamaEnv) (modelName : String) : Bool :=
  match env.listResult with
  | .error _ => false
  | .ok models =>
    let exactMatch := models.any (fun m => m.name == modelName)
    if exactMatch then true
    else
      let baseModelName := replaceLatest modelName
      models.any (fun m =>
        m.name == baseModelName || m.name == baseModelName ++ ":latest")

/-- `OllamaServiceImpl.chat`: re-verifies model existence (failing fast with
a `"not found"` message that `handleError` classifies as MODEL_NOT_FOUND),
then performs one non-streaming round trip.  Note that `request.signal` is
never consulted: the source destructures only `model`, `messages`, `stream`
and the sampling options out of the request, so an abort signal attached by
the caller has no effect on the round trip. -/
def chat (env : OllamaEnv) (request : OllamaChatRequest) : Except TranslationError String :=
  if modelExists env request.model then
    match env.chatContent with
    | .ok response => .ok response
    | .error msg => .error (handleError msg "Translation failed")
  else
    .error (handleError ("Model \"" ++ request.model ++ "\" not found in Ollama")
      "Translation failed")

/-- `TranslationModel` from `src/shared/domain/translation.ts`. -/
structure TranslationModel where
  name : String
  isDefault : Bool := false
  isAvailable : Bool := true
  lastUsed : Option String := none
deriving DecidableEq

/-- `TranslationSettings` from `src/shared/domain/translation.ts` (the
repository's default value also carries a `debounceMs` field). -/
structure TranslationSettings where
  defaultModel : Option String
  debounceMs : Nat := 500
  autoDetectLanguage : Bool := false
  models : List TranslationModel
deriving DecidableEq

/-- JS truthiness of an optional string field: `undefined` and `""` are
falsy (`if (requestedModel)`, `!settings.defaultModel` in the source). -/
def truthyStr : Option String → Bool
  | none => false
  | some s => !(s == "")

/-- The first-match replacement step of
`TranslationSettingsRepositoryImpl.addModel`: `findIndex` on the name,
assignment at that index when found, `push` otherwise. -/
def upsertModel (model : TranslationModel) : List TranslationModel → List TranslationModel
  | [] => [model]
  | m :: ms => if m.name == model.name then model :: ms else m :: upsertModel model ms

/-- `TranslationSettingsRepositoryImpl.addModel`: upsert by name; if the
resulting list has exactly one entry and the current default is falsy, the
added model is promoted to default. -/
def addModel (s : TranslationSettings) (model : TranslationModel) : TranslationSettings :=
  let models' := upsertModel model s.models
  let default' :=
    if models'.length == 1 && !(truthyStr s.defaultModel) then some model.name
    else s.defaultModel
  { s with models := models', defaultModel := default' }

/-- `TranslationSettingsRepositoryImpl.removeModel`: filter out the name;
when the removed name was the default, reassign the default to the first
remaining model, or clear it when none remain. -/
def removeModel (s : TranslationSettings) (modelName : String) : TranslationSettings :=
  let models' := s.models.filter (fun m => !(m.name == modelName))
  let default' :=
    if s.defaultModel == some modelName then
      match models' with
      | [] => none
      | first :: _ => some first.name
    else s.defaultModel
  { s with models := models', defaultModel := default' }

/-- The default-model well-formedness invariant of a settings snapshot: the
default pointer, when set, names a registered model, and registered model
names are non-empty (the domain schema enforces `min(1)` on names). -/
def settingsWF (s : TranslationSettings) : Bool :=
  (match s.defaultModel with
   | none => true
   | some d => s.models.any (fun m => m.name == d))
  && s.models.all (fun m => !(m.name == ""))

/-- The orchestrator's abort controller: `aborted` is the state of its
signal. -/
structure AbortController where
  aborted : Bool
deriving DecidableEq

/-- The orchestrator's in-memory state: the `isCurrentlyTranslating` busy
flag and the single `activeController` slot. -/
structure ServiceState where
  isCurrentlyTranslating : Bool
  activeController : Option AbortController
deriving DecidableEq

/-- `TranslationServiceImpl.isTranslating`: a pure read of the busy flag. -/
def isTranslating (s : ServiceState) : Bool :=
  s.isCurrentlyTranslating

/-- The state after the two entry assignments of `translate`: busy flag set,
fresh (unaborted) controller in the slot. -/
def entryState : ServiceState :=
  { isCurrentlyTranslating := true, activeController := some { aborted := false } }

/-- The state after the `finally` block of `translate` (and after a
successful cancellation): busy flag cleared, controller slot emptied. -/
def idleState : ServiceState :=
  { isCurrentlyTranslating := false, activeController := none }

/-- Outcome of `TranslationServiceImpl.cancelTranslation`: the returned
boolean, the service state afterwards, and whether `abort()` was invoked on
the controller (the token was signalled). -/
structure CancelOutcome where
  returned : Bool
  state : ServiceState
  signalled : Bool
deriving DecidableEq

/-- `TranslationServiceImpl.cancelTranslation`: when a controller is in the
slot AND the busy flag is set, aborts the controller, empties the slot,
clears the flag and returns `true`; otherwise returns `false` without any
effect.  Total, hence it never throws, also when no controller exists. -/
def cancelTranslation (s : ServiceState) : CancelOutcome :=
  match s.activeController with
  | some _ =>
    if s.isCurrentlyTranslating then
      { returned := true, state := idleState, signalled := true }
    else
      { returned := false, state := s, signalled := false }
  | none => { returned := false, state := s, signalled := false }

/-- A collaborator call observable during one `translate` run, in order.
`modelExistsCall` internally performs a backend list (`listModels`) inside
the Ollama service; it is recorded as the single existence query the
orchestrator issued.  `chatCall` records the busy flag at the moment the
inference round trip starts; `cancelCall` records an external
`cancelTranslation()` arriving while the round trip is pending, with its
returned boolean and whether it signalled the token. -/
inductive Event
  | modelExistsCall (name : String)
  | getSettingsCall
  | listModelsCall
  | chatCall (model : String) (busyAtCall : Bool)
  | cancelCall (returned : Bool) (signalled : Bool)
  | updateModelUsageCall (name : String)
deriving DecidableEq

/-- Environment of one `translate` run: the backend oracle, the settings
snapshot the repository returns (`getSettings` never throws), whether the
repository's `updateModelUsage` call fails, whether an external
`cancelTranslation()` arrives during the chat round trip, and the clock
value used for the response timestamp. -/
structure TranslateEnv where
  ollama : OllamaEnv
  settings : TranslationSettings
  usageUpdateFails : Bool
  cancelDuringChat : Bool
  now : String
deriving DecidableEq

/-- Third step of `TranslationServiceImpl.getModelToUse`: enumerate the
backend's models (propagating a classified listing failure), use the first
entry when the list is non-empty, otherwise throw
`"No available models found"`. -/
def tryFirstAvailable (env : TranslateEnv) : Except TransError String × List Event :=
  match listModels env.ollama with
  | .error e => (.error (.classified e), [.listModelsCall])
  | .ok availableModels =>
    match availableModels with
    | [] => (.error (.jsError "No available models found"), [.listModelsCall])
    | first :: _ => (.ok first.name, [.listModelsCall])

/-- Second step of `TranslationServiceImpl.getModelToUse`: read the settings
(`getSettings`), use the configured default when it is truthy and exists on
the backend, otherwise fall through to the first-available step. -/
def tryDefaultModel (env : TranslateEnv) : Except TransError String × List Event :=
  if truthyStr env.settings.defaultModel then
    let d := env.settings.defaultModel.getD ""
    if modelExists env.ollama d then (.ok d, [.getSettingsCall, .modelExistsCall d])
    else
      let rest := tryFirstAvailable env
      (rest.1, .getSettingsCall :: .modelExistsCall d :: rest.2)
  else
    let rest := tryFirstAvailable env
    (rest.1, .getSettingsCall :: rest.2)

/-- `TranslationServiceImpl.getModelToUse`: the strict fallback chain —
truthy requested model that exists on the backend, else configured default
that exists, else first backend-listed model, else failure.  Returns the
resolution outcome together with the trace of collaborator calls made. -/
def getModelToUse (env : TranslateEnv) (requestedModel : Option String) :
    Except TransError String × List Event :=
  if truthyStr requestedModel then
    let r := requestedModel.getD ""
    if modelExists env.ollama r then (.ok r, [.modelExistsCall r])
    else
      let rest := tryDefaultModel env
      (rest.1, .modelExistsCall r :: rest.2)
  else tryDefaultModel env

/-- Drop leading whitespace characters. -/
def dropLeadingWS : List Char → List Char
  | [] => []
  | c :: cs => if c.isWhitespace then dropLeadingWS cs else c :: cs

/-- JS `string.trim()`: strips whitespace from both ends. -/
def jsTrim (s : String) : String :=
  ⟨dropLeadingWS (dropLeadingWS s.data.reverse).reverse⟩

/-- The fixed system instruction of `performTranslation`. -/
def systemPrompt : String :=
  "You are a professional translator. Translate the given text accurately and naturally. Return only the translated text without any explanations or additional content."

/-- `TranslationServiceImpl.createTranslationPrompt`. -/
def createTranslationPrompt (text : String)
    (sourceLanguage targetLanguage : SupportedLanguage) : String :=
  "Translate the following " ++ languageName sourceLanguage ++ " text to "
    ++ languageName targetLanguage ++ ":\n\n" ++ text

/-- `TranslationServiceImpl.performTranslation`: builds the two-message
prompt, invokes the Ollama service's chat with temperature 0.3 and the
active controller's signal attached, and trims the returned text.
`signalAborts` is the oracle for whether that signal fires during the round
trip (the Ollama service ignores it either way). -/
def performTranslation (env : TranslateEnv) (text : String)
    (sourceLanguage targetLanguage : SupportedLanguage) (modelName : String)
    (signalAborts : Bool) : Except TranslationError String :=
  match chat env.ollama
      { model := modelName
        messages :=
          [ { role := "system", content := systemPrompt },
            { role := "user",
              content := createTranslationPrompt text sourceLanguage targetLanguage } ]
        stream := false
        temperature := some ((3 : ℚ) / 10)
        signal := some signalAborts } with
  | .error e => .error e
  | .ok response => .ok (jsTrim response)

/-- `TranslationServiceImpl.updateModelUsage` (the private wrapper): awaits
the repository's `updateModelUsage` and swallows any failure (`catch` logs
and ignores), so it never propagates an error. -/
def updateModelUsage (env : TranslateEnv) (modelName : String) : Except TransError Unit :=
  match (if env.usageUpdateFails
         then (Except.error ("Failed to update model usage: " ++ modelName) :
           Except String Unit)
         else Except.ok ()) with
  | .error _ => .ok ()
  | .ok _ => .ok ()

/-- Outcome of one `translate` run: the settled promise, the orchestrator
state after the call completes, and the ordered collaborator-call trace. -/
structure TranslateOutcome where
  result : Except TransError TranslationResponse
  finalState : ServiceState
  events : List Event
deriving DecidableEq

/-- `TranslationServiceImpl.translate`.  Entry sets the busy flag and a
fresh controller (`entryState`); the `finally` block unconditionally clears
both, so every exit goes through `idleState`.  Body: validate that both
languages are present, resolve the model, short-circuit when source equals
target, otherwise perform the chat round trip (during which an external
`cancelTranslation` may arrive, per `env.cancelDuringChat`), record model
usage, and package the response. -/
def TranslationServiceImpl.translate (env : TranslateEnv) (req : TranslationRequest) :
    TranslateOutcome :=
  match req.sourceLanguage, req.targetLanguage with
  | some sourceLanguage, some targetLanguage =>
    match (getModelToUse env req.modelName).1 with
    | .error e =>
      { result := .error e, finalState := idleState,
        events := (getModelToUse env req.modelName).2 }
    | .ok modelName =>
      if sourceLanguage = targetLanguage then
        { result := .ok
            { translatedText := req.text, sourceLanguage := sourceLanguage,
              targetLanguage := targetLanguage, modelUsed := modelName,
              timestamp := env.now }
          finalState := idleState
          events := (getModelToUse env req.modelName).2 }
      else
        let chatEvents := [Event.chatCall modelName entryState.isCurrentlyTranslating]
        let cancelEvents :=
          if env.cancelDuringChat then
            [Event.cancelCall (cancelTranslation entryState).returned
              (cancelTranslation entryState).signalled]
          else []
        match performTranslation env req.text sourceLanguage targetLanguage modelName
            env.cancelDuringChat with
        | .error e =>
          { result := .error (.classified e), finalState := idleState,
            events := (getModelToUse env req.modelName).2 ++ chatEvents ++ cancelEvents }
        | .ok translatedText =>
          match updateModelUsage env modelName with
          | .error e =>
            { result := .error e, finalState := idleState,
              events := (getModelToUse env req.modelName).2 ++ chatEvents ++ cancelEvents
                ++ [Event.updateModelUsageCall modelName] }
          | .ok _ =>
            { result := .ok
                { translatedText := translatedText, sourceLanguage := sourceLanguage,
                  targetLanguage := targetLanguage, modelUsed := modelName,
                  timestamp := env.now }
              finalState := idleState
              events := (getModelToUse env req.modelName).2 ++ chatEvents ++ cancelEvents
                ++ [Event.updateModelUsageCall modelName] }
  | _, _ =>
    { result := .error (.jsError "Source and target languages are required"),
      finalState := idleState, events := [] }

/-- Event classifier: an inference chat invocation. -/
def isChatCall : Event → Bool
  | .chatCall _ _ => true
  | _ => false

/-- Event classifier: a Settings Store usage-recording invocation. -/
def isUsageCall : Event → Bool
  | .updateModelUsageCall _ => true
  | _ => false

/-- Event classifier: a query against the inference backend (model existence
check or model enumeration). -/
def isBackendQuery : Event → Bool
  | .modelExistsCall _ => true
  | .listModelsCall => true
  | _ => false

/-- Event classifier: the collaborator calls model resolution can make. -/
def isResolutionEvent : Event → Bool
  | .modelExistsCall _ => true
  | .getSettingsCall => true
  | .listModelsCall => true
  | _ => false

/-- Event classifier: every chat invocation was made with the busy flag
set. -/
def chatBusyOk : Event → Bool
  | .chatCall _ busyAtCall => busyAtCall
  | _ => true

/-- The requested-model step of resolution does not settle the model: the
requested name is absent or falsy. -/
def requestedFails (env : TranslateEnv) (requestedModel : Option String) : Bool :=
  !truthyStr requestedModel || !modelExists env.ollama (requestedModel.getD "")

/-- The default-model step of resolution does not settle the model: no
truthy default is configured, or the configured default is not on the
backend. -/
def defaultFails (env : TranslateEnv) : Bool :=
  !truthyStr env.settings.defaultModel
    || !modelExists env.ollama (env.settings.defaultModel.getD "")

/-- Whether the character list ends with `pat`. -/
def charsEndWith (cs pat : List Char) : Bool :=
  charsStartWith cs.reverse pat.reverse

/-- Whether the string ends with `pat`. -/
def strEndsWith (s pat : String) : Bool :=
  charsEndWith s.data pat.data

/-- The string with a trailing `":latest"` suffix removed (unchanged when
there is no such suffix). -/
def stripTrailingLatest (s : String) : String :=
  if strEndsWith s ":latest" then ⟨s.data.take (s.data.length - (":latest").data.length)⟩
  else s

/-- The matching relation claimed of `modelExists`, written from the spec's
words rather than from the source: the backend lists the exact name, or the
name with a trailing `":latest"` suffix added, or the name with its trailing
`":latest"` suffix removed. -/
def claimSuffixMatch (env : OllamaEnv) (name : String) : Bool :=
  match env.listResult with
  | .error _ => false
  | .ok models =>
    models.any (fun m => m.name == name)
    || models.any (fun m => m.name == name ++ ":latest")
    || (strEndsWith name ":latest"
        && models.any (fun m => m.name == stripTrailingLatest name))

/-- A one-model backend used by several concrete runs. -/
def ollamaOneModel : OllamaEnv :=
  { listResult := .ok [{ name := "llama2:latest" }], chatContent := .ok "Bonjour" }

/-- Empty settings snapshot. -/
def emptySettings : TranslationSettings :=
  { defaultModel := none, models := [] }

/-- Concrete environment for the C1 witness: the requested model exists. -/
def envC1 : TranslateEnv :=
  { ollama := ollamaOneModel, settings := emptySettings, usageUpdateFails := false,
    cancelDuringChat := false, now := "2024-01-01T00:00:00.000Z" }

/-- Concrete environment for the C1 witness: empty backend, no default. -/
def envC1empty : TranslateEnv :=
  { ollama := { listResult := .ok [], chatContent := .ok "" },
    settings := emptySettings, usageUpdateFails := false,
    cancelDuringChat := false, now := "2024-01-01T00:00:00.000Z" }

/-- Concrete environment and same-language request for the C2 witness. -/
def envC2 : TranslateEnv :=
  { ollama := ollamaOneModel, settings := emptySettings, usageUpdateFails := false,
    cancelDuringChat := false, now := "2024-01-01T00:00:00.000Z" }

/-- Same-language request (English to English). -/
def reqC2 : TranslationRequest :=
  { text := "Hello World", sourceLanguage := some .en, targetLanguage := some .en,
    modelName := none }

/-- Concrete environment for the C3 witness. -/
def envC3 : TranslateEnv :=
  { ollama := ollamaOneModel, settings := emptySettings, usageUpdateFails := false,
    cancelDuringChat := false, now := "2024-01-01T00:00:00.000Z" }

/-- Request with a missing source language. -/
def reqC3 : TranslationRequest :=
  { text := "Hello World", sourceLanguage := none, targetLanguage := some .en,
    modelName := none }

/-- Concrete environment for the C5 run: an external `cancelTranslation()`
arrives while the chat round trip is pending. -/
def envC5 : TranslateEnv :=
  { ollama := ollamaOneModel, settings := emptySettings, usageUpdateFails := false,
    cancelDuringChat := true, now := "2024-01-01T00:00:00.000Z" }

/-- Translating request (English to Japanese) for the C5 run. -/
def reqC5 : TranslationRequest :=
  { text := "Hello World", sourceLanguage := some .en, targetLanguage := some .ja,
    modelName := none }

/-- Concrete environment for the C7 short-circuit counterexample and the C7
witness. -/
def envC7 : TranslateEnv :=
  { ollama := ollamaOneModel, settings := emptySettings, usageUpdateFails := false,
    cancelDuringChat := false, now := "2024-01-01T00:00:00.000Z" }

/-- Same-language request (Japanese to Japanese) for the C7
counterexample. -/
def reqC7same : TranslationRequest :=
  { text := "Konnichiwa", sourceLanguage := some .ja, targetLanguage := some .ja,
    modelName := none }

/-- Translating request (English to Japanese) for the C7 witness. -/
def reqC7 : TranslationRequest :=
  { text := "Hello World", sourceLanguage := some .en, targetLanguage := some .ja,
    modelName := none }

/-- Backend listing a doubly-suffixed model, for the C8 counterexample. -/
def ollamaC8 : OllamaEnv :=
  { listResult := .ok [{ name := "m:latest:latest" }], chatContent := .ok "" }

/-- One-model backend for the C8 witness. -/
def ollamaC8w : OllamaEnv :=
  { listResult := .ok [{ name := "llama2:latest" }], chatContent := .ok "" }

/-- Settings snapshot for the C9 witness: two models, `alpha` is the
default. -/
def settingsC9 : TranslationSettings :=
  { defaultModel := some "alpha", models := [{ name := "alpha" }, { name := "beta" }] }

/-- Model added in the C9 witness. -/
def modelC9 : TranslationModel :=
  { name := "gamma" }

/-- Concrete environment for the C10 witness: empty backend, no default. -/
def envC10 : TranslateEnv :=
  { ollama := { listResult := .ok [], chatContent := .ok "" },
    settings := emptySettings, usageUpdateFails := false,
    cancelDuringChat := false, now := "2024-01-01T00:00:00.000Z" }

/-- Same-language request for the C10 witness. -/
def reqC10 : TranslationRequest :=
  { text := "Hello World", sourceLanguage := some .en, targetLanguage := some .en,
    modelName := none }

theorem updateModelUsage_ok (env : TranslateEnv) (m : String) :
    updateModelUsage env m = .ok () := by
  unfold updateModelUsage
  by_cases h : env.usageUpdateFails <;> simp [h]

theorem modelExists_of_mem (env : OllamaEnv) (models : List OllamaModel) (m : OllamaModel)
    (h : env.listResult = .ok models) (hm : m ∈ models) :
    modelExists env m.name = true := by
  have hx : models.any (fun x => x.name == m.name) = true :=
    List.any_eq_true.mpr ⟨m, hm, by simp⟩
  simp [modelExists, h, hx]

theorem tryFirstAvailable_sound (env : TranslateEnv) (m : String)
    (h : (tryFirstAvailable env).1 = .ok m) : modelExists env.ollama m = true := by
  unfold tryFirstAvailable listModels at h
  cases hl : env.ollama.listResult with
  | error e => rw [hl] at h; simp at h
  | ok ms =>
    rw [hl] at h
    cases ms with
    | nil => simp at h
    | cons first rest =>
      simp at h
      subst h
      exact modelExists_of_mem env.ollama (first :: rest) first hl (by simp)

theorem tryDefaultModel_sound (env : TranslateEnv) (m : String)
    (h : (tryDefaultModel env).1 = .ok m) : modelExists env.ollama m = true := by
  unfold tryDefaultModel at h
  by_cases ht : truthyStr env.settings.defaultModel
  · rw [if_pos ht] at h
    by_cases hx : modelExists env.ollama (env.settings.defaultModel.getD "") = true
    · rw [if_pos hx] at h
      simp at h
      subst h
      exact hx
    · rw [if_neg hx] at h
      simp at h
      exact tryFirstAvailable_sound env m h
  · rw [if_neg ht] at h
    simp at h
    exact tryFirstAvailable_sound env m h

theorem getModelToUse_sound (env : TranslateEnv) (r : Option String) (m : String)
    (h : (getModelToUse env r).1 = .ok m) : modelExists env.ollama m = true := by
  unfold getModelToUse at h
  by_cases ht : truthyStr r
  · rw [if_pos ht] at h
    by_cases hx : modelExists env.ollama (r.getD "") = true
    · rw [if_pos hx] at h
      simp at h
      subst h
      exact hx
    · rw [if_neg hx] at h
      simp at h
      exact tryDefaultModel_sound env m h
  · rw [if_neg ht] at h
    exact tryDefaultModel_sound env m h

theorem tryFirstAvailable_events (env : TranslateEnv) :
    (tryFirstAvailable env).2.all isResolutionEvent = true := by
  unfold tryFirstAvailable listModels
  cases env.ollama.listResult with
  | error e => simp [isResolutionEvent]
  | ok ms => cases ms <;> simp [isResolutionEvent]

theorem tryDefaultModel_events (env : TranslateEnv) :
    (tryDefaultModel env).2.all isResolutionEvent = true := by
  unfold tryDefaultModel
  by_cases ht : truthyStr env.settings.defaultModel <;>
    by_cases hx : modelExists env.ollama (env.settings.defaultModel.getD "") = true <;>
      simp [ht, hx, isResolutionEvent, tryFirstAvailable_events env]

theorem getModelToUse_events (env : TranslateEnv) (r : Option String) :
    (getModelToUse env r).2.all isResolutionEvent = true := by
  unfold getModelToUse
  by_cases ht : truthyStr r
  · by_cases hx : modelExists env.ollama (r.getD "") = true <;>
      simp [ht, hx, isResolutionEvent, tryDefaultModel_events env]
  · simp [ht, tryDefaultModel_events env]

theorem tryFirstAvailable_query (env : TranslateEnv) :
    (tryFirstAvailable env).2.any isBackendQuery = true := by
  unfold tryFirstAvailable listModels
  cases env.ollama.listResult with
  | error e => simp [isBackendQuery]
  | ok ms => cases ms <;> simp [isBackendQuery]

theorem tryDefaultModel_query (env : TranslateEnv) :
    (tryDefaultModel env).2.any isBackendQuery = true := by
  unfold tryDefaultModel
  by_cases ht : truthyStr env.settings.defaultModel <;>
    by_cases hx : modelExists env.ollama (env.settings.defaultModel.getD "") = true <;>
      simp [ht, hx, isBackendQuery, tryFirstAvailable_query env]

theorem getModelToUse_query (env : TranslateEnv) (r : Option String) :
    (getModelToUse env r).2.any isBackendQuery = true := by
  unfold getModelToUse
  by_cases ht : truthyStr r
  · by_cases hx : modelExists env.ollama (r.getD "") = true <;>
      simp [ht, hx, isBackendQuery, tryDefaultModel_query env]
  · simp [ht, tryDefaultModel_query env]

theorem all_of_all_resolution (l : List Event) (p : Event → Bool)
    (hp : ∀ ev, isResolutionEvent ev = true → p ev = true)
    (h : l.all isResolutionEvent = true) : l.all p = true := by
  rw [List.all_eq_true] at h ⊢
  exact fun ev hev => hp ev (h ev hev)

/-- C6: `cancelTranslation` returns `true`, signals the token, clears the
busy flag and empties the controller slot exactly when both the busy flag is
set and a controller is in the slot — the orchestrator's in-flight
condition; otherwise it returns `false` and leaves the state untouched
without signalling.  The function is total on `ServiceState`, so it never
throws, in particular when no cancellation token exists. -/
theorem cancelTranslation_inflight_iff (s : ServiceState) :
    cancelTranslation s =
      (if s.activeController.isSome && s.isCurrentlyTranslating then
        { returned := true, state := idleState, signalled := true }
      else { returned := false, state := s, signalled := false }) := by
  cases hc : s.activeController <;> by_cases hb : s.isCurrentlyTranslating <;>
    simp [cancelTranslation, hc, hb]

/-- C8 (amended): `modelExists` never throws — a listing failure yields
`false` — and on a successful listing it returns `true` exactly when the
backend lists the exact name, or the name with its FIRST `":latest"`
occurrence removed, or that reduced name with `":latest"` appended.  For
names whose only `":latest"` occurrence is a trailing suffix, this coincides
with suffix-tolerant matching (a suffixed query matches its unsuffixed
registered form and vice versa); adding a further `":latest"` to a name that
already contains one is NOT matched. -/
theorem modelExists_matching (env : OllamaEnv) (name : String) :
    (∀ msg, env.listResult = .error msg → modelExists env name = false)
  ∧ (∀ models, env.listResult = .ok models →
      (modelExists env name = true ↔
        (models.any (fun m => m.name == name) = true
         ∨ models.any (fun m => m.name == replaceLatest name) = true
         ∨ models.any (fun m => m.name == replaceLatest name ++ ":latest") = true))) := by
  constructor
  · intro msg h
    simp [modelExists, h]
  · intro models h
    by_cases hx : models.any (fun m => m.name == name) = true
    · simp [modelExists, h, hx]
    · rw [Bool.not_eq_true] at hx
      simp only [modelExists, h, hx, Bool.false_eq_true, if_false, List.any_eq_true,
        Bool.or_eq_true, false_or]
      constructor
      · rintro ⟨x, hx1, hx2 | hx2⟩
        · exact Or.inl ⟨x, hx1, hx2⟩
        · exact Or.inr ⟨x, hx1, hx2⟩
      · rintro (⟨x, hx1, hx2⟩ | ⟨x, hx1, hx2⟩)
        · exact ⟨x, hx1, Or.inl hx2⟩
        · exact ⟨x, hx1, Or.inr hx2⟩

/-- C8 counterexample: with the backend listing exactly `"m:latest:latest"`,
the query `"m:latest"` satisfies the claimed matching relation (the backend
lists the name with a trailing `":latest"` suffix added), yet `modelExists`
returns `false`: the source removes the FIRST `":latest"` occurrence of the
query, producing base `"m"`, and compares only against `"m"` and
`"m:latest"`. -/
theorem modelExists_suffix_counterexample :
    claimSuffixMatch ollamaC8 "m:latest" = true
  ∧ modelExists ollamaC8 "m:latest" = false := by
  refine ⟨by decide, by decide⟩

theorem modelExists_matching_witness :
    modelExists ollamaC8w "llama2" = true :=
  ((modelExists_matching ollamaC8w "llama2").2 [{ name := "llama2:latest" }] rfl).mpr
    (Or.inr (Or.inr (by decide)))

/-- C5 (code bug, evaluated at the failing input): in this run an external
`cancelTranslation()` arrives while the chat round trip is pending and
signals the in-flight operation's token (the `cancelCall true true` event in
the trace), yet the run still resolves successfully with the chat result —
identically to the run with no cancellation — because
`OllamaServiceImpl.chat` never reads the attached `request.signal`: the
inference call is not aborted and no cancellation-flavored failure
surfaces. -/
theorem translate_cancellation_ignored :
    (TranslationServiceImpl.translate envC5 reqC5).events.contains
      (.cancelCall true true) = true
  ∧ (TranslationServiceImpl.translate envC5 reqC5).result =
      .ok { translatedText := "Bonjour", sourceLanguage := .en, targetLanguage := .ja,
            modelUsed := "llama2:latest", timestamp := "2024-01-01T00:00:00.000Z" }
  ∧ (TranslationServiceImpl.translate envC5 reqC5).result =
      (TranslationServiceImpl.translate { envC5 with cancelDuringChat := false }
        reqC5).result := by
  refine ⟨by decide, by decide, by decide⟩

/-- C3: a request missing either language fails with the validation-class
error "Source and target languages are required", with an empty
collaborator-call trace (no network or asynchronous call is made, no store
mutation occurs) and with the orchestrator back in the idle state: the
transient busy flag set on entry is cleared by the `finally` block within
the same synchronous prefix, so no state mutation is observable from the
failed call. -/
theorem translate_missing_language (env : TranslateEnv) (req : TranslationRequest)
    (h : req.sourceLanguage = none ∨ req.targetLanguage = none) :
    (TranslationServiceImpl.translate env req).result =
      .error (.jsError "Source and target languages are required")
  ∧ (TranslationServiceImpl.translate env req).events = []
  ∧ (TranslationServiceImpl.translate env req).finalState = idleState := by
  rcases hs : req.sourceLanguage with _ | s
  · rcases ht : req.targetLanguage with _ | t <;>
      simp [TranslationServiceImpl.translate, hs, ht]
  · rcases ht : req.targetLanguage with _ | t
    · simp [TranslationServiceImpl.translate, hs, ht]
    · rcases h with h | h
      · rw [hs] at h; exact Option.noConfusion h
      · rw [ht] at h; exact Option.noConfusion h

theorem translate_missing_language_witness :
    (TranslationServiceImpl.translate envC3 reqC3).result =
      .error (.jsError "Source and target languages are required")
  ∧ (TranslationServiceImpl.translate envC3 reqC3).events = []
  ∧ (TranslationServiceImpl.translate envC3 reqC3).finalState = idleState :=
  translate_missing_language envC3 reqC3 (Or.inl rfl)

theorem getModelToUse_requested_skip (env : TranslateEnv) (r : Option String)
    (h : requestedFails env r = true) :
    (getModelToUse env r).1 = (tryDefaultModel env).1 := by
  unfold requestedFails at h
  rw [Bool.or_eq_true, Bool.not_eq_true', Bool.not_eq_true'] at h
  unfold getModelToUse
  rcases h with h | h
  · simp [h]
  · by_cases ht : truthyStr r = true
    · simp [ht, h]
    · rw [Bool.not_eq_true] at ht
      simp [ht]

theorem tryDefaultModel_default_skip (env : TranslateEnv)
    (h : defaultFails env = true) :
    (tryDefaultModel env).1 = (tryFirstAvailable env).1 := by
  unfold defaultFails at h
  rw [Bool.or_eq_true, Bool.not_eq_true', Bool.not_eq_true'] at h
  unfold tryDefaultModel
  rcases h with h | h
  · simp [h]
  · by_cases ht : truthyStr env.settings.defaultModel = true
    · simp [ht, h]
    · rw [Bool.not_eq_true] at ht
      simp [ht]

/-- C1: model resolution follows the strict fallback order.  (1) A present
(truthy, i.e. non-empty — the API boundary enforces a minimum length of 1 on
model names) requested model that exists on the backend is used.  (2) When
the requested step fails (no truthy requested name, or it does not exist), a
configured non-empty default that exists on the backend is used.  (3) When
the default step also fails and the backend lists a non-empty model list,
the first entry is used.  (4) When that list is empty, resolution fails with
the "No available models found" error.  (5) Resolution never selects a model
that does not exist on the backend — in particular, never a nonexistent
requested model. -/
theorem getModelToUse_fallback_order (env : TranslateEnv) (requestedModel : Option String) :
    (∀ r, requestedModel = some r → r ≠ "" → modelExists env.ollama r = true →
      (getModelToUse env requestedModel).1 = .ok r)
  ∧ (requestedFails env requestedModel = true →
      ∀ d, env.settings.defaultModel = some d → d ≠ "" → modelExists env.ollama d = true →
      (getModelToUse env requestedModel).1 = .ok d)
  ∧ (requestedFails env requestedModel = true → defaultFails env = true →
      ∀ first rest, env.ollama.listResult = .ok (first :: rest) →
      (getModelToUse env requestedModel).1 = .ok first.name)
  ∧ (requestedFails env requestedModel = true → defaultFails env = true →
      env.ollama.listResult = .ok [] →
      (getModelToUse env requestedModel).1 = .error (.jsError "No available models found"))
  ∧ (∀ m, (getModelToUse env requestedModel).1 = .ok m →
      modelExists env.ollama m = true) := by
  refine ⟨?_, ?_, ?_, ?_, getModelToUse_sound env requestedModel⟩
  · rintro r rfl hne hex
    have ht : truthyStr (some r) = true := by simp [truthyStr, hne]
    simp [getModelToUse, ht, hex]
  · intro hreq d hd hne hex
    rw [getModelToUse_requested_skip env requestedModel hreq]
    unfold tryDefaultModel
    simp [truthyStr, hd, hne, hex]
  · intro hreq hdef first rest hl
    rw [getModelToUse_requested_skip env requestedModel hreq,
      tryDefaultModel_default_skip env hdef]
    unfold tryFirstAvailable listModels
    simp [hl]
  · intro hreq hdef hl
    rw [getModelToUse_requested_skip env requestedModel hreq,
      tryDefaultModel_default_skip env hdef]
    unfold tryFirstAvailable listModels
    simp [hl]

theorem getModelToUse_fallback_order_witness :
    (getModelToUse envC1 (some "llama2:latest")).1 = .ok "llama2:latest"
  ∧ (getModelToUse envC1empty none).1 = .error (.jsError "No available models found") :=
  ⟨(getModelToUse_fallback_order envC1 (some "llama2:latest")).1 "llama2:latest" rfl
      (by decide) (by decide),
    (getModelToUse_fallback_order envC1empty none).2.2.2.1 (by decide) (by decide) rfl⟩

/-- C2: when both languages are present and equal, `translate` succeeds with
the input text echoed as `translatedText`, with `modelUsed` equal to the
resolved model, and the inference client's chat operation is never
invoked (no chat event appears in the trace). -/
theorem translate_same_language (env : TranslateEnv) (req : TranslationRequest)
    (l : SupportedLanguage) (m : String)
    (hs : req.sourceLanguage = some l) (ht : req.targetLanguage = some l)
    (hm : (getModelToUse env req.modelName).1 = .ok m) :
    (TranslationServiceImpl.translate env req).result =
      .ok { translatedText := req.text, sourceLanguage := l, targetLanguage := l,
            modelUsed := m, timestamp := env.now }
  ∧ (TranslationServiceImpl.translate env req).events.all
      (fun e => !(isChatCall e)) = true := by
  constructor
  · simp [TranslationServiceImpl.translate, hs, ht, hm]
  · have hev : (TranslationServiceImpl.translate env req).events =
        (getModelToUse env req.modelName).2 := by
      simp [TranslationServiceImpl.translate, hs, ht, hm]
    rw [hev]
    exact all_of_all_resolution _ _
      (fun ev hev => by cases ev <;> simp_all [isResolutionEvent, isChatCall])
      (getModelToUse_events env req.modelName)

theorem translate_same_language_witness :
    (TranslationServiceImpl.translate envC2 reqC2).result =
      .ok { translatedText := "Hello World", sourceLanguage := .en, targetLanguage := .en,
            modelUsed := "llama2:latest", timestamp := "2024-01-01T00:00:00.000Z" }
  ∧ (TranslationServiceImpl.translate envC2 reqC2).events.all
      (fun e => !(isChatCall e)) = true :=
  translate_same_language envC2 reqC2 .en "llama2:latest" rfl rfl (by decide)

/-- C4: on every path, success or failure, `translate` ends with the busy
flag cleared (`isTranslating` reads `false`) and the cancellation-token slot
discarded; and every inference chat invocation in the trace was made with
the busy flag set, i.e. the flag is up for the duration of the in-flight
call. -/
theorem translate_clears_state (env : TranslateEnv) (req : TranslationRequest) :
    isTranslating (TranslationServiceImpl.translate env req).finalState = false
  ∧ (TranslationServiceImpl.translate env req).finalState.activeController = none
  ∧ (TranslationServiceImpl.translate env req).events.all chatBusyOk = true := by
  have hres_ok : ((getModelToUse env req.modelName).2).all chatBusyOk = true :=
    all_of_all_resolution _ _
      (fun ev hev => by cases ev <;> simp_all [isResolutionEvent, chatBusyOk])
      (getModelToUse_events env req.modelName)
  rcases hs : req.sourceLanguage with _ | sl
  · rcases ht : req.targetLanguage with _ | tl <;>
      simp [TranslationServiceImpl.translate, hs, ht, isTranslating, idleState]
  · rcases ht : req.targetLanguage with _ | tl
    · simp [TranslationServiceImpl.translate, hs, ht, isTranslating, idleState]
    · rcases hres : (getModelToUse env req.modelName).1 with e | m
      · simp [TranslationServiceImpl.translate, hs, ht, hres, isTranslating, idleState,
          hres_ok]
      · by_cases heq : sl = tl
        · subst heq
          simp [TranslationServiceImpl.translate, hs, ht, hres, isTranslating, idleState,
            hres_ok]
        · have hres_mem : ∀ ev ∈ (getModelToUse env req.modelName).2, chatBusyOk ev = true :=
            List.all_eq_true.mp hres_ok
          have hb1 : ∀ m2, chatBusyOk (Event.chatCall m2 true) = true := fun _ => rfl
          have hb2 : ∀ a b, chatBusyOk (Event.cancelCall a b) = true := fun _ _ => rfl
          have hb3 : ∀ n2, chatBusyOk (Event.updateModelUsageCall n2) = true := fun _ => rfl
          by_cases hc : env.cancelDuringChat = true
          · rcases hperf : performTranslation env req.text sl tl m true with pe | ptext <;>
              simp [TranslationServiceImpl.translate, hs, ht, hres, heq, hperf, hc,
                isTranslating, idleState, List.all_append, hres_ok, hres_mem, hb1, hb2,
                hb3, entryState, cancelTranslation, updateModelUsage_ok]
          · rw [Bool.not_eq_true] at hc
            rcases hperf : performTranslation env req.text sl tl m false with pe | ptext <;>
              simp [TranslationServiceImpl.translate, hs, ht, hres, heq, hperf, hc,
                isTranslating, idleState, List.all_append, hres_ok, hres_mem, hb1, hb2,
                hb3, entryState, cancelTranslation, updateModelUsage_ok]

theorem resolution_filter_usage (l : List Event) (h : l.all isResolutionEvent = true) :
    l.filter isUsageCall = [] := by
  rw [List.filter_eq_nil_iff]
  rw [List.all_eq_true] at h
  intro a ha
  have := h a ha
  cases a <;> simp_all [isResolutionEvent, isUsageCall]

theorem translate_usage_flag_irrel (env : TranslateEnv) (b : Bool) (req : TranslationRequest) :
    TranslationServiceImpl.translate { env with usageUpdateFails := b } req
      = TranslationServiceImpl.translate env req := by
  have h1 : ∀ r, getModelToUse { env with usageUpdateFails := b } r = getModelToUse env r :=
    fun _ => rfl
  have h2 : ∀ t s1 t1 m c,
      performTranslation { env with usageUpdateFails := b } t s1 t1 m c
        = performTranslation env t s1 t1 m c :=
    fun _ _ _ _ _ => rfl
  simp only [TranslationServiceImpl.translate, updateModelUsage_ok, h1, h2]

/-- C7 counterexample: a same-language request is a successful translation
(`translate` resolves with the input text echoed back and the resolved model
reported), yet the Settings Store's usage-recording method is never invoked
on this run — zero invocations, not exactly one. -/
theorem usage_not_recorded_on_short_circuit :
    (TranslationServiceImpl.translate envC7 reqC7same).result =
      .ok { translatedText := "Konnichiwa", sourceLanguage := .ja, targetLanguage := .ja,
            modelUsed := "llama2:latest", timestamp := "2024-01-01T00:00:00.000Z" }
  ∧ (TranslationServiceImpl.translate envC7 reqC7same).events.filter isUsageCall = [] := by
  refine ⟨by decide, by decide⟩

/-- C7 (amended): after every successful translation that actually invoked
the inference backend (source ≠ target), the Settings Store's usage-recording
method is invoked exactly once, with the resolved model name; on the
same-language short-circuit path it is not invoked at all; and a failure of
the recording step is suppressed — the translation outcome is independent of
whether the repository's `updateModelUsage` fails. -/
theorem translate_usage_recording (env : TranslateEnv) (req : TranslationRequest)
    (sl tl : SupportedLanguage)
    (hs : req.sourceLanguage = some sl) (ht : req.targetLanguage = some tl) :
    (sl ≠ tl → ∀ resp, (TranslationServiceImpl.translate env req).result = .ok resp →
      (TranslationServiceImpl.translate env req).events.filter isUsageCall =
        [.updateModelUsageCall resp.modelUsed])
  ∧ (sl = tl → (TranslationServiceImpl.translate env req).events.filter isUsageCall = [])
  ∧ (∀ b, (TranslationServiceImpl.translate { env with usageUpdateFails := b } req).result
      = (TranslationServiceImpl.translate env req).result) := by
  have hres_filter : ((getModelToUse env req.modelName).2).filter isUsageCall = [] :=
    resolution_filter_usage _ (getModelToUse_events env req.modelName)
  refine ⟨?_, ?_, fun b => congrArg TranslateOutcome.result (translate_usage_flag_irrel env b req)⟩
  · intro hne resp hresp
    rcases hres : (getModelToUse env req.modelName).1 with e | m
    · rw [show (TranslationServiceImpl.translate env req).result = .error e from by
        simp [TranslationServiceImpl.translate, hs, ht, hres]] at hresp
      exact Except.noConfusion hresp
    · by_cases hc : env.cancelDuringChat = true
      · rcases hperf : performTranslation env req.text sl tl m true with pe | ptext
        · rw [show (TranslationServiceImpl.translate env req).result = .error (.classified pe)
            from by simp [TranslationServiceImpl.translate, hs, ht, hres, hne, hperf, hc]]
            at hresp
          exact Except.noConfusion hresp
        · have hr : (TranslationServiceImpl.translate env req).result =
              .ok { translatedText := ptext, sourceLanguage := sl, targetLanguage := tl,
                    modelUsed := m, timestamp := env.now } := by
            simp [TranslationServiceImpl.translate, hs, ht, hres, hne, hperf, hc,
              updateModelUsage_ok]
          rw [hr] at hresp
          have hrm : resp.modelUsed = m := by
            cases hresp
            rfl
          simp [TranslationServiceImpl.translate, hs, ht, hres, hne, hperf, hc,
            updateModelUsage_ok, List.filter_append, hres_filter, isUsageCall, hrm]
      · rw [Bool.not_eq_true] at hc
        rcases hperf : performTranslation env req.text sl tl m false with pe | ptext
        · rw [show (TranslationServiceImpl.translate env req).result = .error (.classified pe)
            from by simp [TranslationServiceImpl.translate, hs, ht, hres, hne, hperf, hc]]
            at hresp
          exact Except.noConfusion hresp
        · have hr : (TranslationServiceImpl.translate env req).result =
              .ok { translatedText := ptext, sourceLanguage := sl, targetLanguage := tl,
                    modelUsed := m, timestamp := env.now } := by
            simp [TranslationServiceImpl.translate, hs, ht, hres, hne, hperf, hc,
              updateModelUsage_ok]
          rw [hr] at hresp
          have hrm : resp.modelUsed = m := by
            cases hresp
            rfl
          simp [TranslationServiceImpl.translate, hs, ht, hres, hne, hperf, hc,
            updateModelUsage_ok, List.filter_append, hres_filter, isUsageCall, hrm]
  · intro heq
    subst heq
    rcases hres : (getModelToUse env req.modelName).1 with e | m <;>
      simp [TranslationServiceImpl.translate, hs, ht, hres, hres_filter]

theorem translate_usage_recording_witness :
    (TranslationServiceImpl.translate envC7 reqC7).events.filter isUsageCall =
      [.updateModelUsageCall "llama2:latest"] :=
  (translate_usage_recording envC7 reqC7 .en .ja rfl rfl).1 (by decide)
    { translatedText := "Bonjour", sourceLanguage := .en, targetLanguage := .ja,
      modelUsed := "llama2:latest", timestamp := "2024-01-01T00:00:00.000Z" } (by decide)

theorem upsertModel_mem (model : TranslationModel) (l : List TranslationModel) :
    model ∈ upsertModel model l := by
  induction l with
  | nil => simp [upsertModel]
  | cons m ms ih =>
    by_cases h : (m.name == model.name) = true <;> simp [upsertModel, h, ih]

theorem upsertModel_any_name (model : TranslationModel) (l : List TranslationModel)
    (d : String) (h : l.any (fun m => m.name == d) = true) :
    (upsertModel model l).any (fun m => m.name == d) = true := by
  induction l with
  | nil => simp at h
  | cons m ms ih =>
    rw [List.any_cons, Bool.or_eq_true] at h
    by_cases hn : (m.name == model.name) = true
    · rcases h with h | h
      · have hd : (model.name == d) = true := by
          have h1 : m.name = d := by simpa using h
          have h2 : m.name = model.name := by simpa using hn
          simp [← h2, h1]
        simp [upsertModel, hn, List.any_cons, hd]
      · simp [upsertModel, hn, List.any_cons, h]
    · rcases h with h | h
      · simp [upsertModel, hn, List.any_cons, h]
      · simp [upsertModel, hn, List.any_cons, ih h]

theorem upsertModel_all (model : TranslationModel) (l : List TranslationModel)
    (p : TranslationModel → Bool) (hm : p model = true) (hl : l.all p = true) :
    (upsertModel model l).all p = true := by
  induction l with
  | nil => simp [upsertModel, hm]
  | cons m ms ih =>
    rw [List.all_cons, Bool.and_eq_true] at hl
    by_cases hn : (m.name == model.name) = true
    · simp [upsertModel, hn, List.all_cons, hm, hl.2]
    · simp [upsertModel, hn, List.all_cons, hl.1, ih hl.2]

theorem addModel_WF (s : TranslationSettings) (model : TranslationModel)
    (hw : settingsWF s = true) (hm : model.name ≠ "") :
    settingsWF (addModel s model) = true := by
  unfold settingsWF at hw
  rw [Bool.and_eq_true] at hw
  obtain ⟨hw1, hw2⟩ := hw
  have hmB : (!(model.name == "")) = true := by simp [hm]
  have hall : (upsertModel model s.models).all (fun m => !(m.name == "")) = true :=
    upsertModel_all model s.models _ hmB hw2
  simp only [addModel, settingsWF]
  rw [Bool.and_eq_true]
  constructor
  · by_cases hc :
        ((upsertModel model s.models).length == 1 && !(truthyStr s.defaultModel)) = true
    · rw [if_pos hc]
      exact List.any_eq_true.mpr ⟨model, upsertModel_mem model s.models, by simp⟩
    · rw [if_neg hc]
      cases hd : s.defaultModel with
      | none => rfl
      | some d =>
        rw [hd] at hw1
        exact upsertModel_any_name model s.models d hw1
  · exact hall

theorem removeModel_WF (s : TranslationSettings) (r : String)
    (hw : settingsWF s = true) : settingsWF (removeModel s r) = true := by
  unfold settingsWF at hw
  rw [Bool.and_eq_true] at hw
  obtain ⟨hw1, hw2⟩ := hw
  have hall :
      (s.models.filter (fun m => !(m.name == r))).all (fun m => !(m.name == "")) = true := by
    rw [List.all_eq_true] at hw2 ⊢
    intro a ha
    exact hw2 a (List.mem_of_mem_filter ha)
  simp only [removeModel, settingsWF]
  rw [Bool.and_eq_true]
  refine ⟨?_, hall⟩
  by_cases hc : (s.defaultModel == some r) = true
  · rw [if_pos hc]
    cases hf : s.models.filter (fun m => !(m.name == r)) with
    | nil => rfl
    | cons first rest =>
      exact List.any_eq_true.mpr ⟨first, List.mem_cons_self _ _, by simp⟩
  · rw [if_neg hc]
    cases hd : s.defaultModel with
    | none => rfl
    | some d =>
      rw [hd] at hw1 hc
      have hdr : d ≠ r := by
        intro hdr
        subst hdr
        simp at hc
      obtain ⟨e, he, hed⟩ := List.any_eq_true.mp hw1
      refine List.any_eq_true.mpr ⟨e, List.mem_filter.mpr ⟨he, ?_⟩, hed⟩
      have hen : e.name = d := by simpa using hed
      simp [hen, hdr]

/-- C9: the Settings Store preserves the default-model invariant across
mutations, for every well-formed settings snapshot (default pointer names a
registered model when set; registered names non-empty, as the domain schema
enforces): `addModel` preserves well-formedness and auto-promotes the model
added to an empty model list to default; `removeModel` preserves
well-formedness, and removing the current default reassigns the default to
the first remaining model, or clears it when no models remain. -/
theorem settings_default_invariant (s : TranslationSettings) (model : TranslationModel)
    (r : String) (hw : settingsWF s = true) (hm : model.name ≠ "") :
    settingsWF (addModel s model) = true
  ∧ (s.models = [] → (addModel s model).defaultModel = some model.name)
  ∧ settingsWF (removeModel s r) = true
  ∧ (s.defaultModel = some r →
      ((removeModel s r).models = [] → (removeModel s r).defaultModel = none)
    ∧ (∀ first rest, (removeModel s r).models = first :: rest →
        (removeModel s r).defaultModel = some first.name)) := by
  refine ⟨addModel_WF s model hw hm, ?_, removeModel_WF s r hw, ?_⟩
  · intro hnil
    have hd : s.defaultModel = none := by
      unfold settingsWF at hw
      rw [Bool.and_eq_true] at hw
      obtain ⟨hw1, _⟩ := hw
      cases hdm : s.defaultModel with
      | none => rfl
      | some d =>
        rw [hdm] at hw1
        rw [hnil] at hw1
        simp at hw1
    simp [addModel, hnil, hd, upsertModel, truthyStr]
  · intro hdef
    constructor
    · intro hnil
      simp only [removeModel] at hnil ⊢
      simp [hdef, hnil]
    · intro first rest hcons
      simp only [removeModel] at hcons ⊢
      simp [hdef, hcons]

theorem settings_default_invariant_witness :
    settingsWF (addModel settingsC9 modelC9) = true
  ∧ (removeModel settingsC9 "alpha").defaultModel = some "beta" := by
  have h := settings_default_invariant settingsC9 modelC9 "alpha" (by decide) (by decide)
  exact ⟨h.1, (h.2.2.2 rfl).2 { name := "beta" } [] (by decide)⟩

/-- C10: even when both languages are present and equal, `translate`
performs full model resolution before short-circuiting: its collaborator
trace is exactly the resolution trace, which always contains a backend query
(a model-existence check or a model-list enumeration); any resolution
failure — in particular the "No available models found" error — is
propagated as the failure of `translate`; and neither the usage-recording
step nor the inference chat is invoked on this path. -/
theorem translate_same_language_resolution (env : TranslateEnv) (req : TranslationRequest)
    (l : SupportedLanguage)
    (hs : req.sourceLanguage = some l) (ht : req.targetLanguage = some l) :
    (TranslationServiceImpl.translate env req).events = (getModelToUse env req.modelName).2
  ∧ (TranslationServiceImpl.translate env req).events.any isBackendQuery = true
  ∧ (∀ e, (getModelToUse env req.modelName).1 = .error e →
      (TranslationServiceImpl.translate env req).result = .error e)
  ∧ (TranslationServiceImpl.translate env req).events.all
      (fun ev => !(isUsageCall ev) && !(isChatCall ev)) = true := by
  have hevents : (TranslationServiceImpl.translate env req).events =
      (getModelToUse env req.modelName).2 := by
    rcases hres : (getModelToUse env req.modelName).1 with e | m <;>
      simp [TranslationServiceImpl.translate, hs, ht, hres]
  refine ⟨hevents, ?_, ?_, ?_⟩
  · rw [hevents]
    exact getModelToUse_query env req.modelName
  · intro e he
    simp [TranslationServiceImpl.translate, hs, ht, he]
  · rw [hevents]
    exact all_of_all_resolution _ _
      (fun ev hev => by cases ev <;> simp_all [isResolutionEvent, isUsageCall, isChatCall])
      (getModelToUse_events env req.modelName)

theorem translate_same_language_resolution_witness :
    (TranslationServiceImpl.translate envC10 reqC10).result =
      .error (.jsError "No available models found") :=
  (translate_same_language_resolution envC10 reqC10 .en rfl rfl).2.2.1
    (.jsError "No available models found") (by decide)
